import Mathlib

/-!
Shallow embedding of the session-keyed research job manager of
`src/agent.py` (functions `deep_research`, `list_research_sessions`,
`clear_research_session`, `clear_all_research_sessions`), together with
theorems settling the behavioural claims about it.

The conversation-state mapping `tool_context.state["research_sessions"]`
is modelled as an association list of (job id, label) pairs with Python
`dict` semantics (unique keys; assignment overwrites in place or appends;
`del` removes the key).  The external provider (`client.interactions`)
and the wall clock are modelled by an environment `Env` giving the
outcome of the `create` call, of each successive `get` call, and the
value of `time.time() - start_time` observed at the top of each loop
iteration.  The polling `while True` loop is embedded with explicit
fuel; `none` means the fuel ran out before the loop exited.
-/

set_option autoImplicit false
set_option maxRecDepth 8000

namespace DeepResearchAgent

/-- One element of a completed interaction's `outputs` list.  `text` is the
optional `text` attribute probed by `getattr(last, "text", str(last))`;
`asStr` is the `str(last)` rendering used as the fallback. -/
structure Output where
  text : Option String
  asStr : String
  deriving DecidableEq, Repr

/-- A provider interaction object as returned by `client.interactions.create`
and `client.interactions.get`: an opaque id, a status string, and an optional
outputs list (`None` or a list; both `None` and `[]` are falsy in Python). -/
structure Interaction where
  id : String
  status : String
  outputs : Option (List Output)
  deriving DecidableEq, Repr

/-- The environment a single `deep_research` invocation runs against: the
GenAI client initialisation outcome, the provider's answer to the one
`create` call, the provider's answer to the `n`-th `get` call (0-indexed;
`Except.error` models a raised exception whose `str` is given), and the
value of `time.time() - start_time` read at the top of loop iteration `n`. -/
structure Env where
  clientInitErr : Option String
  createResult : Except String Interaction
  getResult : Nat → Except String Interaction
  elapsed : Nat → Int

/-- The dictionary returned by the `deep_research` tool: either
`{"status": "error", "message": msg}` or
`{"status": "success", "report": r, "current_interaction_id": id,
"active_sessions": sessions}`. -/
inductive ResearchResult where
  | error (message : String)
  | success (report : String) (currentInteractionId : String)
      (activeSessions : List (String × String))
  deriving DecidableEq, Repr

/-- The dictionary returned by the session-maintenance tools:
`{"status": "success" | "error", "message": msg}`. -/
inductive ToolMessage where
  | success (message : String)
  | error (message : String)
  deriving DecidableEq, Repr

/-- Which return statement of `deep_research` produced the result
(instrumentation of the embedding; not part of the returned dictionary). -/
inductive ExitKind where
  | clientInitFail
  | unknownSession
  | createError
  | timedOut
  | getError
  | jobFailed
  | success
  deriving DecidableEq, Repr

/-- Instrumented outcome of one `deep_research` invocation: the returned
dictionary, the final value of `tool_context.state["research_sessions"]`
(`none` when the key is absent from the state), the number of calls made to
the provider's `create`, `get` and cancel operations, and which exit was
taken.  The source never invokes a provider cancel operation, so `cancels`
is 0 on every path. -/
structure RunResult where
  result : ResearchResult
  state : Option (List (String × String))
  creates : Nat
  gets : Nat
  cancels : Nat
  exit : ExitKind
  deriving DecidableEq, Repr

namespace Sessions

/-- Python `sessions.get(k)` / `k in sessions` lookup on the registry. -/
def lookup : List (String × String) → String → Option String
  | [], _ => none
  | p :: rest, k => if p.1 = k then some p.2 else lookup rest k

/-- Python `k in sessions`. -/
def containsKey (s : List (String × String)) (k : String) : Bool :=
  (lookup s k).isSome

/-- Python `sessions[k] = v`: overwrite in place when the key is present,
append otherwise. -/
def insert (s : List (String × String)) (k v : String) :
    List (String × String) :=
  if containsKey s k then s.map (fun p => if p.1 = k then (k, v) else p)
  else s ++ [(k, v)]

/-- Python `del sessions[k]`. -/
def erase (s : List (String × String)) (k : String) :
    List (String × String) :=
  s.filter (fun p => p.1 != k)

end Sessions

/-- Report extraction of `deep_research` (agent.py lines 102-105):
`report_text = "No output."`; `if interaction.outputs:` take the last
element and `getattr(last, "text", str(last))`. -/
def extractReport (outputs : Option (List Output)) : String :=
  match outputs with
  | none => "No output."
  | some os =>
    match os.getLast? with
    | none => "No output."
    | some last =>
      match last.text with
      | some t => t
      | none => last.asStr

/-- What one exit of the polling `while True` loop carried. -/
inductive PollOutcome where
  | timeout
  | getError (message : String)
  | terminalFailure (status : String)
  | completed (interaction : Interaction)
  deriving DecidableEq, Repr

/-- The polling loop of `deep_research` (agent.py lines 82-95), with fuel.
`n` is the current iteration index; the pair's second component is the
number of `get` calls made when the loop exits.  Each iteration first
checks `time.time() - start_time > timeout` (timeout = 600), then calls
`client.interactions.get`, then tests `completed`, then
`failed`/`cancelled`, and otherwise sleeps and repeats. -/
def pollLoop (env : Env) : Nat → Nat → Option (PollOutcome × Nat)
  | 0, _ => none
  | fuel + 1, n =>
    if env.elapsed n > 600 then some (.timeout, n)
    else
      match env.getResult n with
      | .error e => some (.getError e, n + 1)
      | .ok i =>
        if i.status = "completed" then some (.completed i, n + 1)
        else if i.status = "failed" ∨ i.status = "cancelled" then
          some (.terminalFailure i.status, n + 1)
        else pollLoop env fuel (n + 1)

/-- The body of `deep_research` from the `try:` onwards (agent.py lines
70-116), entered with the `prev_id` left by validation and the current
registry value `sessions`: the `create` call, the polling loop, the
`if not prev_id:` registry insertion
`sessions[interaction.id] = query[:50] + "..."` (a truthiness test, so
both `None` and an empty string insert), report extraction, and the
`except` clause turning a raised exception into an error dictionary. -/
def runJob (env : Env) (fuel : Nat) (query : String) (prevId : Option String)
    (sessions : List (String × String)) : Option RunResult :=
  match env.createResult with
  | .error e => some ⟨.error e, some sessions, 1, 0, 0, .createError⟩
  | .ok _created =>
    match pollLoop env fuel 0 with
    | none => none
    | some (.timeout, g) =>
      some ⟨.error "Research timed out.", some sessions, 1, g, 0, .timedOut⟩
    | some (.getError e, g) =>
      some ⟨.error e, some sessions, 1, g, 0, .getError⟩
    | some (.terminalFailure st, g) =>
      some ⟨.error ("Research failed: " ++ st), some sessions, 1, g, 0,
        .jobFailed⟩
    | some (.completed i, g) =>
      let sessions2 :=
        match prevId with
        | none => Sessions.insert sessions i.id (query.take 50 ++ "...")
        | some p =>
          if p.isEmpty then
            Sessions.insert sessions i.id (query.take 50 ++ "...")
          else sessions
      some ⟨.success (extractReport i.outputs) i.id sessions2,
        some sessions2, 1, g, 0, .success⟩

/-- The `deep_research` tool (agent.py lines 44-116).  `state` is the value
of `tool_context.state["research_sessions"]` on entry (`none` when the key
is absent).  Client initialisation happens first; then the missing key is
bound to `{}`; then the resume handle is gated by Python truthiness
(`if interaction_id:` at line 63): `None` and the empty string are falsy,
so both skip validation and start a new job, while a non-empty
`interaction_id` is validated against the registry (failing with the
not-found message and no provider call); then the job is created, polled
and finalised by `runJob`. -/
def deep_research (env : Env) (fuel : Nat) (query : String)
    (interactionId : Option String)
    (state : Option (List (String × String))) : Option RunResult :=
  match env.clientInitErr with
  | some e =>
    some ⟨.error ("Failed to initialize GenAI Client: " ++ e), state, 0, 0,
      0, .clientInitFail⟩
  | none =>
    let sessions := state.getD []
    match interactionId with
    | some iid =>
      if iid.isEmpty then runJob env fuel query none sessions
      else if Sessions.containsKey sessions iid then
        runJob env fuel query (some iid) sessions
      else
        some ⟨.error ("Interaction ID " ++ iid ++ " not found in history."),
          some sessions, 0, 0, 0, .unknownSession⟩
    | none => runJob env fuel query none sessions

/-- The `list_research_sessions` tool (agent.py lines 118-123). -/
def list_research_sessions (state : Option (List (String × String))) :
    List (String × String) :=
  state.getD []

/-- The `clear_research_session` tool (agent.py lines 125-132): it reads
`state.get("research_sessions", {})`; on a present id it deletes the entry,
writes the mapping back and returns a success message; on an absent id it
returns an error-status message and performs no write. -/
def clear_research_session (interactionId : String)
    (state : Option (List (String × String))) :
    ToolMessage × Option (List (String × String)) :=
  let sessions := state.getD []
  if Sessions.containsKey sessions interactionId then
    (.success ("Session " ++ interactionId ++ " cleared."),
      some (Sessions.erase sessions interactionId))
  else
    (.error ("Session " ++ interactionId ++ " not found."), state)

/-- The `clear_all_research_sessions` tool (agent.py lines 134-137). -/
def clear_all_research_sessions
    (_state : Option (List (String × String))) :
    ToolMessage × Option (List (String × String)) :=
  (.success "All sessions cleared.", some [])

/-! ### Helper lemmas about the registry operations -/

theorem Sessions.lookup_erase_self (s : List (String × String)) (k : String) :
    Sessions.lookup (Sessions.erase s k) k = none := by
  induction s with
  | nil => rfl
  | cons p rest ih =>
    simp only [Sessions.erase, List.filter_cons] at *
    by_cases h : p.1 = k
    · simp [h, ih]
    · simp [h, Sessions.lookup, ih, bne_iff_ne]

theorem Sessions.lookup_erase_ne (s : List (String × String)) (k k' : String)
    (hne : k' ≠ k) :
    Sessions.lookup (Sessions.erase s k) k' = Sessions.lookup s k' := by
  induction s with
  | nil => rfl
  | cons p rest ih =>
    simp only [Sessions.erase, List.filter_cons] at *
    by_cases h : p.1 = k
    · simp [h, Sessions.lookup, Ne.symm hne, ih]
    · simp [h, Sessions.lookup, ih, bne_iff_ne]

theorem Sessions.insert_fresh (s : List (String × String)) (k v : String)
    (h : Sessions.containsKey s k = false) :
    Sessions.insert s k v = s ++ [(k, v)] := by
  simp [Sessions.insert, h]

/-! ### Helper lemmas about the polling loop -/

theorem pollLoop_gets_ge (env : Env) :
    ∀ fuel n o g, pollLoop env fuel n = some (o, g) → n ≤ g := by
  intro fuel
  induction fuel with
  | zero => intro n o g h; simp [pollLoop] at h
  | succ fuel ih =>
    intro n o g h
    rw [pollLoop] at h
    by_cases h0 : env.elapsed n > 600
    · rw [if_pos h0] at h
      simp only [Option.some.injEq, Prod.mk.injEq] at h
      omega
    · rw [if_neg h0] at h
      cases hg : env.getResult n with
      | error e =>
        simp only [hg] at h
        simp only [Option.some.injEq, Prod.mk.injEq] at h
        omega
      | ok i =>
        simp only [hg] at h
        by_cases hc : i.status = "completed"
        · rw [if_pos hc] at h
          simp only [Option.some.injEq, Prod.mk.injEq] at h
          omega
        · rw [if_neg hc] at h
          by_cases hf : i.status = "failed" ∨ i.status = "cancelled"
          · rw [if_pos hf] at h
            simp only [Option.some.injEq, Prod.mk.injEq] at h
            omega
          · rw [if_neg hf] at h
            have := ih (n + 1) o g h
            omega

theorem pollLoop_timeout_reached (env : Env)
    (hok : ∀ k, ∃ i, env.getResult k = .ok i ∧ i.status ≠ "completed" ∧
      i.status ≠ "failed" ∧ i.status ≠ "cancelled") :
    ∀ d n fuel, d < fuel → env.elapsed (n + d) > 600 →
      ∃ g, pollLoop env fuel n = some (.timeout, g) := by
  intro d
  induction d with
  | zero =>
    intro n fuel hf he
    cases fuel with
    | zero => omega
    | succ f =>
      refine ⟨n, ?_⟩
      rw [pollLoop, if_pos (by simpa using he)]
  | succ d ih =>
    intro n fuel hf he
    cases fuel with
    | zero => omega
    | succ f =>
      by_cases h0 : env.elapsed n > 600
      · exact ⟨n, by rw [pollLoop, if_pos h0]⟩
      · obtain ⟨i, hi, h1, h2, h3⟩ := hok n
        obtain ⟨g, hg⟩ := ih (n + 1) f (by omega)
          (by have harith : n + 1 + d = n + (d + 1) := by omega
              rw [harith]; exact he)
        refine ⟨g, ?_⟩
        rw [pollLoop, if_neg h0]
        simp only [hi]
        rw [if_neg h1, if_neg (by tauto)]
        exact hg

theorem pollLoop_scripted_terminal (env : Env) :
    ∀ (N n fuel : Nat), N < fuel →
    (∀ k, k < N → ∃ i, env.getResult (n + k) = .ok i ∧
      i.status ≠ "completed" ∧ i.status ≠ "failed" ∧ i.status ≠ "cancelled") →
    (∀ k, k ≤ N → ¬ env.elapsed (n + k) > 600) →
    ∀ i, env.getResult (n + N) = .ok i →
    (i.status = "completed" →
      pollLoop env fuel n = some (.completed i, n + N + 1)) ∧
    ((i.status = "failed" ∨ i.status = "cancelled") →
      pollLoop env fuel n = some (.terminalFailure i.status, n + N + 1)) := by
  intro N
  induction N with
  | zero =>
    intro n fuel hf hrun htime i hi
    cases fuel with
    | zero => omega
    | succ f =>
      have ht : ¬ env.elapsed n > 600 := by simpa using htime 0 (le_refl 0)
      constructor
      · intro hc
        rw [pollLoop, if_neg ht]
        simp only [Nat.add_zero] at hi
        simp only [hi]
        rw [if_pos hc]
      · intro hfc
        have hc : ¬ i.status = "completed" := by
          rcases hfc with h | h <;> rw [h] <;> decide
        rw [pollLoop, if_neg ht]
        simp only [Nat.add_zero] at hi
        simp only [hi]
        rw [if_neg hc, if_pos hfc]
  | succ N ih =>
    intro n fuel hf hrun htime i hi
    cases fuel with
    | zero => omega
    | succ f =>
      have ht : ¬ env.elapsed n > 600 := by simpa using htime 0 (by omega)
      obtain ⟨i0, hi0, h1, h2, h3⟩ := by simpa using hrun 0 (by omega)
      have step : pollLoop env (f + 1) n = pollLoop env f (n + 1) := by
        rw [pollLoop, if_neg ht]
        simp only [hi0]
        rw [if_neg h1, if_neg (by tauto)]
      have hrun' : ∀ k, k < N → ∃ j, env.getResult (n + 1 + k) = .ok j ∧
          j.status ≠ "completed" ∧ j.status ≠ "failed" ∧
          j.status ≠ "cancelled" := by
        intro k hk
        have : n + 1 + k = n + (k + 1) := by omega
        rw [this]
        exact hrun (k + 1) (by omega)
      have htime' : ∀ k, k ≤ N → ¬ env.elapsed (n + 1 + k) > 600 := by
        intro k hk
        have : n + 1 + k = n + (k + 1) := by omega
        rw [this]
        exact htime (k + 1) (by omega)
      have hi' : env.getResult (n + 1 + N) = .ok i := by
        have : n + 1 + N = n + (N + 1) := by omega
        rw [this]; exact hi
      have := ih (n + 1) f (by omega) hrun' htime' i hi'
      have harith : n + 1 + N + 1 = n + (N + 1) + 1 := by omega
      constructor
      · intro hc
        rw [step]
        rw [← harith]
        exact this.1 hc
      · intro hfc
        rw [step]
        rw [← harith]
        exact this.2 hfc

theorem pollLoop_completed_inv (env : Env) :
    ∀ fuel n i g, pollLoop env fuel n = some (.completed i, g) →
      i.status = "completed" ∧ 1 ≤ g ∧ env.getResult (g - 1) = .ok i := by
  intro fuel
  induction fuel with
  | zero => intro n i g h; simp [pollLoop] at h
  | succ fuel ih =>
    intro n i g h
    rw [pollLoop] at h
    by_cases h0 : env.elapsed n > 600
    · rw [if_pos h0] at h
      simp at h
    · rw [if_neg h0] at h
      cases hg : env.getResult n with
      | error e => simp only [hg] at h; simp at h
      | ok j =>
        simp only [hg] at h
        by_cases hc : j.status = "completed"
        · rw [if_pos hc] at h
          simp only [Option.some.injEq, Prod.mk.injEq, PollOutcome.completed.injEq] at h
          obtain ⟨rfl, rfl⟩ := h
          refine ⟨hc, by omega, ?_⟩
          simpa using hg
        · rw [if_neg hc] at h
          by_cases hf : j.status = "failed" ∨ j.status = "cancelled"
          · rw [if_pos hf] at h; simp at h
          · rw [if_neg hf] at h
            exact ih (n + 1) i g h

theorem pollLoop_terminalFailure_inv (env : Env) :
    ∀ fuel n st g, pollLoop env fuel n = some (.terminalFailure st, g) →
      ∃ i, env.getResult (g - 1) = .ok i ∧ i.status = st ∧
        (st = "failed" ∨ st = "cancelled") := by
  intro fuel
  induction fuel with
  | zero => intro n st g h; simp [pollLoop] at h
  | succ fuel ih =>
    intro n st g h
    rw [pollLoop] at h
    by_cases h0 : env.elapsed n > 600
    · rw [if_pos h0] at h
      simp at h
    · rw [if_neg h0] at h
      cases hg : env.getResult n with
      | error e => simp only [hg] at h; simp at h
      | ok j =>
        simp only [hg] at h
        by_cases hc : j.status = "completed"
        · rw [if_pos hc] at h; simp at h
        · rw [if_neg hc] at h
          by_cases hf : j.status = "failed" ∨ j.status = "cancelled"
          · rw [if_pos hf] at h
            simp only [Option.some.injEq, Prod.mk.injEq,
              PollOutcome.terminalFailure.injEq] at h
            obtain ⟨rfl, rfl⟩ := h
            exact ⟨j, by simpa using hg, rfl, hf⟩
          · rw [if_neg hf] at h
            exact ih (n + 1) st g h

theorem pollLoop_timeout_pos (env : Env) (fuel g : Nat)
    (h : pollLoop env fuel 0 = some (.timeout, g))
    (h0 : ¬ env.elapsed 0 > 600) : 1 ≤ g := by
  cases fuel with
  | zero => simp [pollLoop] at h
  | succ f =>
    rw [pollLoop, if_neg h0] at h
    cases hg : env.getResult 0 with
    | error e => simp only [hg] at h; simp at h
    | ok i =>
      simp only [hg] at h
      by_cases hc : i.status = "completed"
      · rw [if_pos hc] at h; simp at h
      · rw [if_neg hc] at h
        by_cases hf : i.status = "failed" ∨ i.status = "cancelled"
        · rw [if_pos hf] at h; simp at h
        · rw [if_neg hf] at h
          exact pollLoop_gets_ge env f 1 _ g h

/-! ### Reductions and inversions for `runJob` and `deep_research` -/

theorem deep_research_new_eq (env : Env) (fuel : Nat) (q : String)
    (s0 : List (String × String)) (hci : env.clientInitErr = none) :
    deep_research env fuel q none (some s0) = runJob env fuel q none s0 := by
  simp [deep_research, hci]

theorem deep_research_resume_eq (env : Env) (fuel : Nat) (q rid : String)
    (s0 : List (String × String)) (hci : env.clientInitErr = none)
    (hne : rid.isEmpty = false)
    (hmem : Sessions.containsKey s0 rid = true) :
    deep_research env fuel q (some rid) (some s0) =
      runJob env fuel q (some rid) s0 := by
  simp [deep_research, hci, hne, hmem]

theorem deep_research_empty_resume_eq (env : Env) (fuel : Nat)
    (q rid : String) (s0 : List (String × String))
    (hci : env.clientInitErr = none) (hemp : rid.isEmpty = true) :
    deep_research env fuel q (some rid) (some s0) =
      runJob env fuel q none s0 := by
  simp [deep_research, hci, hemp]

theorem runJob_success_inv_new (env : Env) (fuel : Nat) (q : String)
    (s0 : List (String × String)) (rr : RunResult)
    (h : runJob env fuel q none s0 = some rr) (hs : rr.exit = .success) :
    ∃ i g, pollLoop env fuel 0 = some (.completed i, g) ∧
      rr = ⟨ResearchResult.success (extractReport i.outputs) i.id
        (Sessions.insert s0 i.id (q.take 50 ++ "...")),
        some (Sessions.insert s0 i.id (q.take 50 ++ "...")), 1, g, 0,
        .success⟩ := by
  cases hcr : env.createResult with
  | error e =>
    simp only [runJob, hcr, Option.some.injEq] at h
    subst h
    simp at hs
  | ok c =>
    cases hp : pollLoop env fuel 0 with
    | none => simp [runJob, hcr, hp] at h
    | some pr =>
      obtain ⟨outcome, g⟩ := pr
      cases outcome with
      | timeout =>
        simp only [runJob, hcr, hp, Option.some.injEq] at h
        subst h; simp at hs
      | getError e =>
        simp only [runJob, hcr, hp, Option.some.injEq] at h
        subst h; simp at hs
      | terminalFailure st =>
        simp only [runJob, hcr, hp, Option.some.injEq] at h
        subst h; simp at hs
      | completed i =>
        simp only [runJob, hcr, hp, Option.some.injEq] at h
        exact ⟨i, g, rfl, h.symm⟩

theorem runJob_success_inv_resumed (env : Env) (fuel : Nat) (q rid : String)
    (s0 : List (String × String)) (rr : RunResult)
    (hne : rid.isEmpty = false)
    (h : runJob env fuel q (some rid) s0 = some rr)
    (hs : rr.exit = .success) :
    ∃ i g, pollLoop env fuel 0 = some (.completed i, g) ∧
      rr = ⟨ResearchResult.success (extractReport i.outputs) i.id s0,
        some s0, 1, g, 0, .success⟩ := by
  cases hcr : env.createResult with
  | error e =>
    simp only [runJob, hcr, Option.some.injEq] at h
    subst h
    simp at hs
  | ok c =>
    cases hp : pollLoop env fuel 0 with
    | none => simp [runJob, hcr, hp] at h
    | some pr =>
      obtain ⟨outcome, g⟩ := pr
      cases outcome with
      | timeout =>
        simp only [runJob, hcr, hp, Option.some.injEq] at h
        subst h; simp at hs
      | getError e =>
        simp only [runJob, hcr, hp, Option.some.injEq] at h
        subst h; simp at hs
      | terminalFailure st =>
        simp only [runJob, hcr, hp, Option.some.injEq] at h
        subst h; simp at hs
      | completed i =>
        simp only [runJob, hcr, hp, hne, Bool.false_eq_true, if_false,
          Option.some.injEq] at h
        exact ⟨i, g, rfl, h.symm⟩

theorem runJob_state_inv (env : Env) (fuel : Nat) (q : String)
    (prevId : Option String) (s0 : List (String × String)) (rr : RunResult)
    (h : runJob env fuel q prevId s0 = some rr) :
    ∃ s, rr.state = some s ∧ (rr.exit ≠ .success → s = s0) := by
  cases hcr : env.createResult with
  | error e =>
    simp only [runJob, hcr, Option.some.injEq] at h
    subst h
    exact ⟨s0, rfl, fun _ => rfl⟩
  | ok c =>
    cases hp : pollLoop env fuel 0 with
    | none => simp [runJob, hcr, hp] at h
    | some pr =>
      obtain ⟨outcome, g⟩ := pr
      cases outcome with
      | timeout =>
        simp only [runJob, hcr, hp, Option.some.injEq] at h
        subst h
        exact ⟨s0, rfl, fun _ => rfl⟩
      | getError e =>
        simp only [runJob, hcr, hp, Option.some.injEq] at h
        subst h
        exact ⟨s0, rfl, fun _ => rfl⟩
      | terminalFailure st =>
        simp only [runJob, hcr, hp, Option.some.injEq] at h
        subst h
        exact ⟨s0, rfl, fun _ => rfl⟩
      | completed i =>
        simp only [runJob, hcr, hp, Option.some.injEq] at h
        subst h
        exact ⟨_, rfl, fun hne => absurd rfl hne⟩

theorem runJob_timedOut_inv (env : Env) (fuel : Nat) (q : String)
    (prevId : Option String) (s0 : List (String × String)) (rr : RunResult)
    (h : runJob env fuel q prevId s0 = some rr) (hs : rr.exit = .timedOut) :
    pollLoop env fuel 0 = some (.timeout, rr.gets) := by
  cases hcr : env.createResult with
  | error e =>
    simp only [runJob, hcr, Option.some.injEq] at h
    subst h; simp at hs
  | ok c =>
    cases hp : pollLoop env fuel 0 with
    | none => simp [runJob, hcr, hp] at h
    | some pr =>
      obtain ⟨outcome, g⟩ := pr
      cases outcome with
      | timeout =>
        simp only [runJob, hcr, hp, Option.some.injEq] at h
        subst h
        rfl
      | getError e =>
        simp only [runJob, hcr, hp, Option.some.injEq] at h
        subst h; simp at hs
      | terminalFailure st =>
        simp only [runJob, hcr, hp, Option.some.injEq] at h
        subst h; simp at hs
      | completed i =>
        simp only [runJob, hcr, hp, Option.some.injEq] at h
        subst h; simp at hs

theorem runJob_timeout_forward (env : Env) (fuel : Nat) (q : String)
    (prevId : Option String) (s0 : List (String × String)) (N : Nat)
    (hcr : ∃ c, env.createResult = .ok c)
    (hok : ∀ k, ∃ i, env.getResult k = .ok i ∧ i.status ≠ "completed" ∧
      i.status ≠ "failed" ∧ i.status ≠ "cancelled")
    (hN : env.elapsed N > 600) (hfuel : N < fuel) :
    ∃ g, runJob env fuel q prevId s0 =
      some ⟨.error "Research timed out.", some s0, 1, g, 0, .timedOut⟩ := by
  obtain ⟨c, hc⟩ := hcr
  obtain ⟨g, hp⟩ := pollLoop_timeout_reached env hok N 0 fuel hfuel
    (by simpa using hN)
  exact ⟨g, by simp only [runJob, hc, hp]⟩

theorem deep_research_success_inv_new (env : Env) (fuel : Nat) (q : String)
    (s0 : List (String × String)) (rr : RunResult)
    (h : deep_research env fuel q none (some s0) = some rr)
    (hs : rr.exit = .success) :
    ∃ i g, pollLoop env fuel 0 = some (.completed i, g) ∧
      rr = ⟨ResearchResult.success (extractReport i.outputs) i.id
        (Sessions.insert s0 i.id (q.take 50 ++ "...")),
        some (Sessions.insert s0 i.id (q.take 50 ++ "...")), 1, g, 0,
        .success⟩ := by
  cases hci : env.clientInitErr with
  | some e =>
    simp only [deep_research, hci, Option.some.injEq] at h
    subst h; simp at hs
  | none =>
    rw [deep_research_new_eq env fuel q s0 hci] at h
    exact runJob_success_inv_new env fuel q s0 rr h hs

theorem deep_research_success_inv_resumed (env : Env) (fuel : Nat)
    (q rid : String) (s0 : List (String × String)) (rr : RunResult)
    (hne : rid.isEmpty = false)
    (h : deep_research env fuel q (some rid) (some s0) = some rr)
    (hs : rr.exit = .success) :
    Sessions.containsKey s0 rid = true ∧
    ∃ i g, pollLoop env fuel 0 = some (.completed i, g) ∧
      rr = ⟨ResearchResult.success (extractReport i.outputs) i.id s0,
        some s0, 1, g, 0, .success⟩ := by
  cases hci : env.clientInitErr with
  | some e =>
    simp only [deep_research, hci, Option.some.injEq] at h
    subst h; simp at hs
  | none =>
    by_cases hmem : Sessions.containsKey s0 rid = true
    · rw [deep_research_resume_eq env fuel q rid s0 hci hne hmem] at h
      exact ⟨hmem, runJob_success_inv_resumed env fuel q rid s0 rr hne h hs⟩
    · simp only [deep_research, hci, Option.getD_some, hne,
        Bool.not_eq_true] at h hmem
      rw [hmem] at h
      simp only [Bool.false_eq_true, if_false, Option.some.injEq] at h
      subst h
      simp at hs

/-! ### Lemmas about report extraction -/

theorem extractReport_empty (outputs : Option (List Output))
    (h : outputs = none ∨ outputs = some []) :
    extractReport outputs = "No output." := by
  rcases h with h | h <;> subst h <;> rfl

theorem extractReport_last_text (os : List Output) (last : Output)
    (t : String) (hl : os.getLast? = some last) (ht : last.text = some t) :
    extractReport (some os) = t := by
  simp [extractReport, hl, ht]

theorem extractReport_last_noText (os : List Output) (last : Output)
    (hl : os.getLast? = some last) (ht : last.text = none) :
    extractReport (some os) = last.asStr := by
  simp [extractReport, hl, ht]

/-! ### Concrete environments used by the witnesses -/

/-- Concrete environment whose job completes on the second `get` with one
text-bearing output. -/
def envDone : Env where
  clientInitErr := none
  createResult := .ok ⟨"J1", "queued", none⟩
  getResult := fun n =>
    if n = 0 then .ok ⟨"J1", "in_progress", none⟩
    else .ok ⟨"J1", "completed",
      some [⟨some "Quantum computing uses...", "out0"⟩]⟩
  elapsed := fun _ => 0

/-- Concrete environment whose `get` always reports an in-progress job and
whose clock advances 301 seconds per iteration. -/
def envStuck : Env where
  clientInitErr := none
  createResult := .ok ⟨"J1", "queued", none⟩
  getResult := fun _ => .ok ⟨"J1", "in_progress", none⟩
  elapsed := fun n => 301 * n

/-- Concrete environment whose second `get` reports a cancelled job. -/
def envCancelled : Env where
  clientInitErr := none
  createResult := .ok ⟨"J1", "queued", none⟩
  getResult := fun n =>
    if n = 0 then .ok ⟨"J1", "in_progress", none⟩
    else .ok ⟨"J1", "cancelled", none⟩
  elapsed := fun _ => 0

/-- Concrete environment completing immediately, with a last output that
has no text attribute. -/
def envNoText : Env where
  clientInitErr := none
  createResult := .ok ⟨"J2", "queued", none⟩
  getResult := fun _ =>
    .ok ⟨"J2", "completed", some [⟨none, "<Output object>"⟩]⟩
  elapsed := fun _ => 0

/-! ### The claims -/

/-- C1 counterexample: the resume id "" is not a key of the empty registry,
yet `deep_research` does not return the not-found error there: the Python
truthiness gate `if interaction_id:` (agent.py line 63) treats the empty
string as no id at all, so the run falls back to starting a new job —
calling the provider's `create` and `get` and inserting a registry
entry — refuting the claim's "for every resumeId that is not a key". -/
theorem deep_research_unknown_resume_counterexample :
    Sessions.containsKey [] "" = false ∧
    deep_research envDone 5 "q" (some "") (some []) =
      some ⟨.success "Quantum computing uses..." "J1" [("J1", "q...")],
        some [("J1", "q...")], 1, 2, 0, .success⟩ ∧
    deep_research envDone 5 "q" (some "") (some []) ≠
      some ⟨.error ("Interaction ID " ++ "" ++ " not found in history."),
        some [], 0, 0, 0, .unknownSession⟩ := by decide

/-- C1 (amended): for every query and every non-empty resume id that is
not a key of the session registry, `deep_research` returns the error
dictionary whose message names the id as not found in history, makes no
provider `create` or `get` call, and leaves the registry entries
unchanged.  (An empty resume id is falsy in Python, skips validation and
starts a new job instead.) -/
theorem deep_research_unknown_resume (env : Env) (fuel : Nat) (q rid : String)
    (s0 : List (String × String)) (hci : env.clientInitErr = none)
    (hne : rid.isEmpty = false)
    (habs : Sessions.containsKey s0 rid = false) :
    deep_research env fuel q (some rid) (some s0) =
      some ⟨.error ("Interaction ID " ++ rid ++ " not found in history."),
        some s0, 0, 0, 0, .unknownSession⟩ := by
  simp [deep_research, hci, hne, habs]

theorem deep_research_unknown_resume_witness :
    envDone.clientInitErr = none ∧
    "J9".isEmpty = false ∧
    Sessions.containsKey [("J1", "lbl")] "J9" = false ∧
    deep_research envDone 5 "q" (some "J9") (some [("J1", "lbl")]) =
      some ⟨.error ("Interaction ID " ++ "J9" ++ " not found in history."),
        some [("J1", "lbl")], 0, 0, 0, .unknownSession⟩ :=
  ⟨rfl, by decide, by decide,
    deep_research_unknown_resume envDone 5 "q" "J9" [("J1", "lbl")] rfl
      (by decide) (by decide)⟩

/-- C2: every successful run with no resume id adds exactly one registry
entry, keyed by the job id the provider returned, labelled with the first
50 characters of the query followed by the "..." marker (the query is
universally quantified, so the marker is appended even when the query is
shorter than 50 characters); when the returned job id is not already a
key, the entry is appended and every existing entry is untouched. -/
theorem deep_research_new_job_adds_entry (env : Env) (fuel : Nat)
    (q : String) (s0 : List (String × String)) (rr : RunResult)
    (h : deep_research env fuel q none (some s0) = some rr)
    (hs : rr.exit = .success) :
    ∃ jid rep, rr.result = .success rep jid
        (Sessions.insert s0 jid (q.take 50 ++ "...")) ∧
      rr.state = some (Sessions.insert s0 jid (q.take 50 ++ "...")) ∧
      (Sessions.containsKey s0 jid = false →
        Sessions.insert s0 jid (q.take 50 ++ "...") =
          s0 ++ [(jid, q.take 50 ++ "...")]) := by
  obtain ⟨i, g, hp, hrr⟩ := deep_research_success_inv_new env fuel q s0 rr
    h hs
  subst hrr
  exact ⟨i.id, extractReport i.outputs, rfl, rfl,
    fun hfresh => Sessions.insert_fresh s0 i.id _ hfresh⟩

def rrWitnessNew : RunResult :=
  ⟨.success "Quantum computing uses..." "J1" [("J1", "hi...")],
    some [("J1", "hi...")], 1, 2, 0, .success⟩

theorem deep_research_new_job_adds_entry_witness :
    deep_research envDone 5 "hi" none (some []) = some rrWitnessNew ∧
    rrWitnessNew.exit = .success ∧
    ∃ jid rep, rrWitnessNew.result = .success rep jid
        (Sessions.insert [] jid ("hi".take 50 ++ "...")) ∧
      rrWitnessNew.state = some (Sessions.insert [] jid
        ("hi".take 50 ++ "...")) ∧
      (Sessions.containsKey [] jid = false →
        Sessions.insert [] jid ("hi".take 50 ++ "...") =
          [] ++ [(jid, "hi".take 50 ++ "...")]) :=
  ⟨by decide, rfl,
    deep_research_new_job_adds_entry envDone 5 "hi" [] rrWitnessNew
      (by decide) rfl⟩

/-- C3 counterexample: at interaction id "J9" and an empty registry,
`clear_research_session` reports the absent id through a
`status: "error"` message dictionary — refuting the claim that not-found
is reported via a boolean and not via an error/failure result. -/
theorem clear_session_absent_counterexample :
    (clear_research_session "J9" (some [])).1 =
      ToolMessage.error "Session J9 not found." := by decide

/-- C3 (amended): `clear_research_session` on a present id removes exactly
that id (every other entry keeps its key and label) and reports success;
on an absent id it leaves the registry unchanged and reports not-found via
an error-status result dictionary (not via a found-boolean). -/
theorem clear_session_spec (iid : String) (s0 : List (String × String)) :
    (Sessions.containsKey s0 iid = true →
      clear_research_session iid (some s0) =
        (ToolMessage.success ("Session " ++ iid ++ " cleared."),
          some (Sessions.erase s0 iid))) ∧
    (Sessions.containsKey s0 iid = false →
      clear_research_session iid (some s0) =
        (ToolMessage.error ("Session " ++ iid ++ " not found."), some s0)) ∧
    Sessions.lookup (Sessions.erase s0 iid) iid = none ∧
    (∀ k, k ≠ iid →
      Sessions.lookup (Sessions.erase s0 iid) k = Sessions.lookup s0 k) := by
  refine ⟨fun hmem => ?_, fun habs => ?_, Sessions.lookup_erase_self s0 iid,
    fun k hk => Sessions.lookup_erase_ne s0 iid k hk⟩
  · simp [clear_research_session, hmem]
  · simp [clear_research_session, habs]

theorem clear_session_spec_witness :
    (Sessions.containsKey [("J1", "a"), ("J2", "b")] "J1" = true →
      clear_research_session "J1" (some [("J1", "a"), ("J2", "b")]) =
        (ToolMessage.success ("Session " ++ "J1" ++ " cleared."),
          some (Sessions.erase [("J1", "a"), ("J2", "b")] "J1"))) ∧
    (Sessions.containsKey [("J1", "a"), ("J2", "b")] "J1" = false →
      clear_research_session "J1" (some [("J1", "a"), ("J2", "b")]) =
        (ToolMessage.error ("Session " ++ "J1" ++ " not found."),
          some [("J1", "a"), ("J2", "b")])) ∧
    Sessions.lookup (Sessions.erase [("J1", "a"), ("J2", "b")] "J1") "J1"
      = none ∧
    (∀ k, k ≠ "J1" →
      Sessions.lookup (Sessions.erase [("J1", "a"), ("J2", "b")] "J1") k =
        Sessions.lookup [("J1", "a"), ("J2", "b")] k) :=
  clear_session_spec "J1" [("J1", "a"), ("J2", "b")]

/-- C4 counterexample: when the registry holds the key "" and the caller
resumes with `resumeId = ""`, the truthiness gate (agent.py line 63)
treats the id as absent, the run starts a new job, and on success a new
entry is inserted: the registry is not unchanged, refuting the claim's
"for every resumeId that is present in the registry". -/
theorem deep_research_resumed_frame_counterexample :
    Sessions.containsKey [("", "old")] "" = true ∧
    deep_research envDone 5 "q" (some "") (some [("", "old")]) =
      some ⟨.success "Quantum computing uses..." "J1"
          [("", "old"), ("J1", "q...")],
        some [("", "old"), ("J1", "q...")], 1, 2, 0, .success⟩ ∧
    (deep_research envDone 5 "q" (some "") (some [("", "old")])).map
      RunResult.state ≠ some (some [("", "old")]) := by decide

/-- C4 (amended): every successful run resumed with a non-empty resume id
present in the registry leaves the registry unchanged — the final state
and the returned `active_sessions` are the very registry the run started
with, so every key keeps its label (in particular the resumed id keeps
its original label) and no entry is added for the returned job id.  (An
empty resume id is falsy in Python and starts a new job, which does
insert an entry on success.) -/
theorem deep_research_resumed_frame (env : Env) (fuel : Nat) (q rid : String)
    (s0 : List (String × String)) (rr : RunResult)
    (hne : rid.isEmpty = false)
    (h : deep_research env fuel q (some rid) (some s0) = some rr)
    (hs : rr.exit = .success) :
    rr.state = some s0 ∧ ∃ rep jid, rr.result = .success rep jid s0 := by
  obtain ⟨hmem, i, g, hp, hrr⟩ := deep_research_success_inv_resumed env fuel
    q rid s0 rr hne h hs
  subst hrr
  exact ⟨rfl, extractReport i.outputs, i.id, rfl⟩

def rrWitnessResumed : RunResult :=
  ⟨.success "Quantum computing uses..." "J1" [("J1", "old label")],
    some [("J1", "old label")], 1, 2, 0, .success⟩

theorem deep_research_resumed_frame_witness :
    "J1".isEmpty = false ∧
    deep_research envDone 5 "new topic" (some "J1")
      (some [("J1", "old label")]) = some rrWitnessResumed ∧
    rrWitnessResumed.exit = .success ∧
    (rrWitnessResumed.state = some [("J1", "old label")] ∧
      ∃ rep jid, rrWitnessResumed.result =
        .success rep jid [("J1", "old label")]) :=
  ⟨by decide, by decide, rfl,
    deep_research_resumed_frame envDone 5 "new topic" "J1"
      [("J1", "old label")] rrWitnessResumed (by decide) (by decide) rfl⟩

/-- C5: against a provider whose `get` always reports a running-equivalent
status, once the elapsed time exceeds the 600-second budget the run
returns the timeout error dictionary, issues no cancellation to the
provider (the `cancels` count is 0), and leaves the registry entries
unchanged. -/
theorem deep_research_timeout_frame (env : Env) (fuel N : Nat) (q : String)
    (iid : Option String) (s0 : List (String × String))
    (hci : env.clientInitErr = none)
    (hcr : ∃ c, env.createResult = .ok c)
    (hok : ∀ k, ∃ i, env.getResult k = .ok i ∧ i.status ≠ "completed" ∧
      i.status ≠ "failed" ∧ i.status ≠ "cancelled")
    (hv : iid = none ∨ ∃ r, iid = some r ∧ Sessions.containsKey s0 r = true)
    (hN : env.elapsed N > 600) (hfuel : N < fuel) :
    ∃ g, deep_research env fuel q iid (some s0) =
      some ⟨.error "Research timed out.", some s0, 1, g, 0, .timedOut⟩ := by
  rcases hv with rfl | ⟨r, rfl, hmem⟩
  · rw [deep_research_new_eq env fuel q s0 hci]
    exact runJob_timeout_forward env fuel q none s0 N hcr hok hN hfuel
  · by_cases hemp : r.isEmpty = true
    · rw [deep_research_empty_resume_eq env fuel q r s0 hci hemp]
      exact runJob_timeout_forward env fuel q none s0 N hcr hok hN hfuel
    · rw [Bool.not_eq_true] at hemp
      rw [deep_research_resume_eq env fuel q r s0 hci hemp hmem]
      exact runJob_timeout_forward env fuel q (some r) s0 N hcr hok hN hfuel

theorem deep_research_timeout_frame_witness :
    envStuck.clientInitErr = none ∧
    envStuck.elapsed 2 > 600 ∧
    ∃ g, deep_research envStuck 3 "q" none (some [("K", "l")]) =
      some ⟨.error "Research timed out.", some [("K", "l")], 1, g, 0,
        .timedOut⟩ :=
  ⟨rfl, by decide,
    deep_research_timeout_frame envStuck 3 2 "q" none [("K", "l")] rfl
      ⟨⟨"J1", "queued", none⟩, rfl⟩
      (fun _ => ⟨⟨"J1", "in_progress", none⟩, rfl, by decide, by decide,
        by decide⟩)
      (Or.inl rfl) (by decide) (by decide)⟩

/-- C6: when the polls report running-equivalent statuses until poll `N`
returns status `failed` or `cancelled` (with the timeout budget not yet
exceeded), the run terminates with the research-failed error carrying the
provider's terminal status string, and the registry entries are
unchanged. -/
theorem deep_research_job_failed_frame (env : Env) (fuel N : Nat)
    (q : String) (iid : Option String) (s0 : List (String × String))
    (i : Interaction)
    (hci : env.clientInitErr = none)
    (hcr : ∃ c, env.createResult = .ok c)
    (hv : iid = none ∨ ∃ r, iid = some r ∧ Sessions.containsKey s0 r = true)
    (hrun : ∀ k, k < N → ∃ j, env.getResult k = .ok j ∧
      j.status ≠ "completed" ∧ j.status ≠ "failed" ∧ j.status ≠ "cancelled")
    (htime : ∀ k, k ≤ N → ¬ env.elapsed k > 600)
    (hN : env.getResult N = .ok i)
    (hterm : i.status = "failed" ∨ i.status = "cancelled")
    (hfuel : N < fuel) :
    deep_research env fuel q iid (some s0) =
      some ⟨.error ("Research failed: " ++ i.status), some s0, 1, N + 1, 0,
        .jobFailed⟩ := by
  obtain ⟨c, hc⟩ := hcr
  have hpoll := (pollLoop_scripted_terminal env N 0 fuel hfuel
    (by intro k hk; simpa using hrun k hk)
    (by intro k hk; simpa using htime k hk)
    i (by simpa using hN)).2 hterm
  simp only [Nat.zero_add] at hpoll
  rcases hv with rfl | ⟨r, rfl, hmem⟩
  · rw [deep_research_new_eq env fuel q s0 hci]
    simp only [runJob, hc, hpoll]
  · by_cases hemp : r.isEmpty = true
    · rw [deep_research_empty_resume_eq env fuel q r s0 hci hemp]
      simp only [runJob, hc, hpoll]
    · rw [Bool.not_eq_true] at hemp
      rw [deep_research_resume_eq env fuel q r s0 hci hemp hmem]
      simp only [runJob, hc, hpoll]

theorem deep_research_job_failed_frame_witness :
    envCancelled.getResult 1 = .ok ⟨"J1", "cancelled", none⟩ ∧
    deep_research envCancelled 3 "q" none (some [("K", "l")]) =
      some ⟨.error ("Research failed: " ++
          (Interaction.mk "J1" "cancelled" none).status),
        some [("K", "l")], 1, 1 + 1, 0, .jobFailed⟩ :=
  ⟨rfl,
    deep_research_job_failed_frame envCancelled 3 1 "q" none [("K", "l")]
      ⟨"J1", "cancelled", none⟩ rfl ⟨⟨"J1", "queued", none⟩, rfl⟩
      (Or.inl rfl)
      (by intro k hk
          have hk0 : k = 0 := by omega
          subst hk0
          exact ⟨⟨"J1", "in_progress", none⟩, rfl, by decide, by decide,
            by decide⟩)
      (fun _ _ => by change ¬ (0 : Int) > 600; decide) rfl (Or.inr rfl)
      (by decide)⟩

/-- C7: every successful run's report is the text extracted from the last
element of the completed interaction's outputs list: when the outputs are
absent or empty the report is exactly the "No output." placeholder, and
when the last element carries a text attribute the report equals that
text. -/
theorem deep_research_report_extraction (env : Env) (fuel : Nat)
    (q : String) (iid : Option String) (s0 : List (String × String))
    (rr : RunResult)
    (h : deep_research env fuel q iid (some s0) = some rr)
    (hs : rr.exit = .success) :
    ∃ i g sess, pollLoop env fuel 0 = some (.completed i, g) ∧
      i.status = "completed" ∧
      rr.result = .success (extractReport i.outputs) i.id sess ∧
      ((i.outputs = none ∨ i.outputs = some []) →
        extractReport i.outputs = "No output.") ∧
      (∀ os last t, i.outputs = some os → os.getLast? = some last →
        last.text = some t → extractReport i.outputs = t) := by
  cases iid with
  | none =>
    obtain ⟨i, g, hp, hrr⟩ := deep_research_success_inv_new env fuel q s0 rr
      h hs
    subst hrr
    refine ⟨i, g, _, hp, (pollLoop_completed_inv env fuel 0 i g hp).1, rfl,
      extractReport_empty i.outputs, ?_⟩
    intro os last t ho hl ht
    rw [ho]
    exact extractReport_last_text os last t hl ht
  | some rid =>
    by_cases hemp : rid.isEmpty = true
    · cases hci : env.clientInitErr with
      | some e =>
        simp only [deep_research, hci, Option.some.injEq] at h
        subst h; simp at hs
      | none =>
        rw [deep_research_empty_resume_eq env fuel q rid s0 hci hemp] at h
        obtain ⟨i, g, hp, hrr⟩ := runJob_success_inv_new env fuel q s0 rr
          h hs
        subst hrr
        refine ⟨i, g, _, hp, (pollLoop_completed_inv env fuel 0 i g hp).1,
          rfl, extractReport_empty i.outputs, ?_⟩
        intro os last t ho hl ht
        rw [ho]
        exact extractReport_last_text os last t hl ht
    · rw [Bool.not_eq_true] at hemp
      obtain ⟨hmem, i, g, hp, hrr⟩ := deep_research_success_inv_resumed env
        fuel q rid s0 rr hemp h hs
      subst hrr
      refine ⟨i, g, _, hp, (pollLoop_completed_inv env fuel 0 i g hp).1, rfl,
        extractReport_empty i.outputs, ?_⟩
      intro os last t ho hl ht
      rw [ho]
      exact extractReport_last_text os last t hl ht

theorem deep_research_report_extraction_witness :
    deep_research envDone 5 "hi" none (some []) = some rrWitnessNew ∧
    rrWitnessNew.exit = .success ∧
    ∃ i g sess, pollLoop envDone 5 0 = some (.completed i, g) ∧
      i.status = "completed" ∧
      rrWitnessNew.result = .success (extractReport i.outputs) i.id sess ∧
      ((i.outputs = none ∨ i.outputs = some []) →
        extractReport i.outputs = "No output.") ∧
      (∀ os last t, i.outputs = some os → os.getLast? = some last →
        last.text = some t → extractReport i.outputs = t) :=
  ⟨by decide, rfl,
    deep_research_report_extraction envDone 5 "hi" none [] rrWitnessNew
      (by decide) rfl⟩

/-- C8: a completed job whose outputs list is non-empty but whose last
element exposes no text attribute still produces a success result, and
the report is the `str` rendering of that last element rather than the
"No output." placeholder (the `getattr` probe never raises). -/
theorem deep_research_no_text_attr (env : Env) (fuel N : Nat) (q : String)
    (s0 : List (String × String)) (i : Interaction) (os : List Output)
    (last : Output)
    (hci : env.clientInitErr = none)
    (hcr : ∃ c, env.createResult = .ok c)
    (hrun : ∀ k, k < N → ∃ j, env.getResult k = .ok j ∧
      j.status ≠ "completed" ∧ j.status ≠ "failed" ∧ j.status ≠ "cancelled")
    (htime : ∀ k, k ≤ N → ¬ env.elapsed k > 600)
    (hN : env.getResult N = .ok i) (hcomp : i.status = "completed")
    (hout : i.outputs = some os) (hlast : os.getLast? = some last)
    (hnoattr : last.text = none) (hfuel : N < fuel) :
    deep_research env fuel q none (some s0) =
      some ⟨.success last.asStr i.id
        (Sessions.insert s0 i.id (q.take 50 ++ "...")),
        some (Sessions.insert s0 i.id (q.take 50 ++ "...")), 1, N + 1, 0,
        .success⟩ := by
  obtain ⟨c, hc⟩ := hcr
  have hpoll := (pollLoop_scripted_terminal env N 0 fuel hfuel
    (by intro k hk; simpa using hrun k hk)
    (by intro k hk; simpa using htime k hk)
    i (by simpa using hN)).1 hcomp
  simp only [Nat.zero_add] at hpoll
  have hrep : extractReport i.outputs = last.asStr := by
    rw [hout]
    exact extractReport_last_noText os last hlast hnoattr
  rw [deep_research_new_eq env fuel q s0 hci]
  simp only [runJob, hc, hpoll, hrep]

theorem deep_research_no_text_attr_witness :
    (Interaction.mk "J2" "completed" (some [⟨none, "<Output object>"⟩])
      ).outputs = some [⟨none, "<Output object>"⟩] ∧
    deep_research envNoText 1 "q" none (some []) =
      some ⟨.success (Output.mk none "<Output object>").asStr
          (Interaction.mk "J2" "completed"
            (some [⟨none, "<Output object>"⟩])).id
          (Sessions.insert [] (Interaction.mk "J2" "completed"
            (some [⟨none, "<Output object>"⟩])).id ("q".take 50 ++ "...")),
        some (Sessions.insert [] (Interaction.mk "J2" "completed"
          (some [⟨none, "<Output object>"⟩])).id ("q".take 50 ++ "...")),
        1, 0 + 1, 0, .success⟩ :=
  ⟨rfl,
    deep_research_no_text_attr envNoText 1 0 "q" []
      ⟨"J2", "completed", some [⟨none, "<Output object>"⟩]⟩
      [⟨none, "<Output object>"⟩] ⟨none, "<Output object>"⟩ rfl
      ⟨⟨"J2", "queued", none⟩, rfl⟩
      (fun k hk => absurd hk (Nat.not_lt_zero k))
      (fun _ _ => by change ¬ (0 : Int) > 600; decide) rfl rfl rfl rfl rfl
      (by decide)⟩

/-- C9: a timeout result is never produced before at least one provider
status fetch: the timeout check sits at the top of each loop iteration, so
when the elapsed time at the first iteration is within the 600-second
budget, any run that exits through the timeout return has made at least
one `get` call. -/
theorem deep_research_timeout_after_get (env : Env) (fuel : Nat)
    (q : String) (iid : Option String)
    (st : Option (List (String × String))) (rr : RunResult)
    (h : deep_research env fuel q iid st = some rr)
    (h0 : ¬ env.elapsed 0 > 600) (hto : rr.exit = .timedOut) :
    1 ≤ rr.gets := by
  cases hci : env.clientInitErr with
  | some e =>
    simp only [deep_research, hci, Option.some.injEq] at h
    subst h
    simp at hto
  | none =>
    have hrj : ∃ prevId, runJob env fuel q prevId (st.getD []) = some rr := by
      cases iid with
      | none => exact ⟨none, by simpa [deep_research, hci] using h⟩
      | some rid =>
        by_cases hemp : rid.isEmpty = true
        · exact ⟨none, by simpa [deep_research, hci, hemp] using h⟩
        · rw [Bool.not_eq_true] at hemp
          by_cases hmem : Sessions.containsKey (st.getD []) rid = true
          · exact ⟨some rid,
              by simpa [deep_research, hci, hemp, hmem] using h⟩
          · exfalso
            rw [Bool.not_eq_true] at hmem
            simp only [deep_research, hci, hemp, hmem, Bool.false_eq_true,
              if_false, Option.some.injEq] at h
            subst h
            simp at hto
    obtain ⟨prevId, hrj⟩ := hrj
    exact pollLoop_timeout_pos env fuel rr.gets
      (runJob_timedOut_inv env fuel q prevId (st.getD []) rr hrj hto) h0

def rrWitnessTimeout : RunResult :=
  ⟨.error "Research timed out.", some [], 1, 2, 0, .timedOut⟩

theorem deep_research_timeout_after_get_witness :
    deep_research envStuck 4 "q" none (some []) = some rrWitnessTimeout ∧
    ¬ envStuck.elapsed 0 > 600 ∧ rrWitnessTimeout.exit = .timedOut ∧
    1 ≤ rrWitnessTimeout.gets :=
  ⟨by decide, by decide, rfl,
    deep_research_timeout_after_get envStuck 4 "q" none (some [])
      rrWitnessTimeout (by decide) (by decide) rfl⟩

/-- C10: invoked on a conversation state without the "research_sessions"
key (with client initialisation succeeding), the key is bound before
validation, so the final state always carries the key, and on every exit
other than success — unknown resume id, provider error, job failure or
timeout — its set of entries is empty, i.e. unchanged from the created
empty mapping. -/
theorem deep_research_initialises_state (env : Env) (fuel : Nat)
    (q : String) (iid : Option String) (rr : RunResult)
    (hci : env.clientInitErr = none)
    (h : deep_research env fuel q iid none = some rr) :
    ∃ s, rr.state = some s ∧ (rr.exit ≠ .success → s = []) := by
  cases iid with
  | none =>
    have hrj : runJob env fuel q none [] = some rr := by
      simpa [deep_research, hci] using h
    exact runJob_state_inv env fuel q none [] rr hrj
  | some rid =>
    by_cases hemp : rid.isEmpty = true
    · have hrj : runJob env fuel q none [] = some rr := by
        simpa [deep_research, hci, hemp] using h
      exact runJob_state_inv env fuel q none [] rr hrj
    · rw [Bool.not_eq_true] at hemp
      simp only [deep_research, hci, hemp, Option.getD_none,
        Sessions.containsKey, Sessions.lookup, Option.isSome_none,
        Bool.false_eq_true, if_false, Option.some.injEq] at h
      subst h
      exact ⟨[], rfl, fun _ => rfl⟩

theorem deep_research_initialises_state_witness :
    envDone.clientInitErr = none ∧
    deep_research envDone 5 "q" (some "J9") none =
      some ⟨.error ("Interaction ID " ++ "J9" ++ " not found in history."),
        some [], 0, 0, 0, .unknownSession⟩ ∧
    ∃ s, (RunResult.mk
        (.error ("Interaction ID " ++ "J9" ++ " not found in history."))
        (some []) 0 0 0 .unknownSession).state = some s ∧
      ((RunResult.mk
        (.error ("Interaction ID " ++ "J9" ++ " not found in history."))
        (some []) 0 0 0 .unknownSession).exit ≠ .success → s = []) :=
  ⟨rfl, by decide,
    deep_research_initialises_state envDone 5 "q" (some "J9")
      ⟨.error ("Interaction ID " ++ "J9" ++ " not found in history."),
        some [], 0, 0, 0, .unknownSession⟩ rfl (by decide)⟩

end DeepResearchAgent
